import Mathlib

/-!
Shallow embedding of the Hellfast/Stepify frontend client core:

* the job-status polling page (`frontend/src/routes/video/job/[jobId]/+page.svelte`,
  concatenated into `src/frontend/src/routes/video/[videoId]/+page.server.ts`),
* the result page's format-dependent rendering branches (same file),
* the authenticated request gateway (`src/frontend/src/lib/api/client.ts`),
* the session state store (`src/frontend/src/lib/stores/auth.ts`),
* the YouTube id extraction and the submission form validator
  (`src/frontend/src/lib/api/index.ts`,
   `src/frontend/src/lib/components/video/VideoProcessForm.svelte`).

All definitions are translated from the TypeScript source.  The client runs
in the browser, so the `$app/environment` flag `browser` is modelled as
`true` throughout.
-/

namespace Hellfast

/-! ## Job data model (§3 of the spec, consumed by the polling page) -/

/-- `status` field of a job, one of the four server-side states. -/
inductive JobState where
  | pending
  | processing
  | completed
  | failed
deriving DecidableEq, Repr

/-- A job-status response body as read by the polling page:
`{status, progress, error, video_id}`. -/
structure Job where
  status : JobState
  progress : ℚ
  error : Option String
  video_id : String
deriving DecidableEq, Repr

/-- Outcome of one `videoApi.getJobStatus` call: either the parsed job, or a
thrown error carrying the surfaced message (`err.message`, or the
`"Failed to get job status"` fallback already applied). -/
inductive PollResult where
  | ok (j : Job)
  | err (msg : String)
deriving DecidableEq, Repr

/-! ## The polling page state machine

`frontend/src/routes/video/job/[jobId]/+page.svelte`:

```
let job = null; let error = null; let intervalId;
onMount(async () => {
  await checkJobStatus();
  intervalId = setInterval(checkJobStatus, 3000);
});
onDestroy(() => { if (intervalId) clearInterval(intervalId); });
async function checkJobStatus() {
  try {
    const status = await videoApi.getJobStatus(jobId);
    job = status;
    if (status.status === "completed") {
      clearInterval(intervalId);
      setTimeout(() => { window.location.href = `/video/$\x7bstatus.video_id\x7d`; }, 1000);
    }
    if (status.status === "failed") { clearInterval(intervalId); }
  } catch (err) {
    error = err instanceof Error ? err.message : "Failed to get job status";
    clearInterval(intervalId);
  }
}
```

The result page (`/video/[videoId]`) performs exactly one
`videoApi.getVideoResult` call in its `onMount`; navigating there is modelled
by `navigate`, which tears the polling page down and counts that one fetch.
-/

/-- Poll interval of the job page: `setInterval(checkJobStatus, 3000)`. -/
def pollIntervalMs : Nat := 3000

/-- Grace delay before navigating to the result view:
`setTimeout(..., 1000)` in the `completed` branch. -/
def graceDelayMs : Nat := 1000

/-- State of the polling page together with the externally observable
counters (status requests issued, result fetches performed). -/
structure PageState where
  /-- the `job` state variable (last successful status response) -/
  job : Option Job
  /-- the `error` state variable (set by the `catch` branch) -/
  error : Option String
  /-- `intervalId` is set and has not been `clearInterval`ed -/
  intervalActive : Bool
  /-- a `setTimeout` navigation to `/video/{video_id}` is pending -/
  pendingNav : Option String
  /-- the component has been destroyed (navigation or teardown) -/
  destroyed : Bool
  /-- number of `getJobStatus` requests issued -/
  pollCount : Nat
  /-- number of `getVideoResult` fetches performed (result page `onMount`) -/
  resultFetches : Nat
  /-- result view the page navigated to, keyed by `video_id` -/
  navTarget : Option String
deriving DecidableEq, Repr

/-- Page state before `onMount` runs. -/
def initialPage : PageState :=
  { job := none, error := none, intervalActive := false, pendingNav := none
    destroyed := false, pollCount := 0, resultFetches := 0, navTarget := none }

/-- `checkJobStatus` processing the settled response `r`.  `clearInterval`
is modelled by `intervalActive := false` (a no-op when no interval is
running, exactly like `clearInterval(undefined)`); the completed branch's
`setTimeout` navigation is modelled by `pendingNav`. -/
def checkJobStatus (r : PollResult) (s : PageState) : PageState :=
  match r with
  | .ok j =>
    let s1 := { s with job := some j }
    match j.status with
    | .completed => { s1 with intervalActive := false, pendingNav := some j.video_id }
    | .failed => { s1 with intervalActive := false }
    | _ => s1
  | .err msg => { s with error := some msg, intervalActive := false }

/-- `onMount`: issue the first status request, process its response, and
only then start the interval (`intervalId = setInterval(...)` runs after the
awaited first `checkJobStatus`, whatever its outcome). -/
def afterMount (r : PollResult) : PageState :=
  let s := checkJobStatus r { initialPage with pollCount := 1 }
  { s with intervalActive := true }

/-- Navigation fired by the pending `setTimeout`: assigning
`window.location.href` unloads the polling page (so its interval dies with
it) and mounts the result page, whose `onMount` performs the single
`getVideoResult` fetch. -/
def navigate (s : PageState) : PageState :=
  match s.pendingNav with
  | some vid =>
    { s with destroyed := true, intervalActive := false, pendingNav := none
             resultFetches := s.resultFetches + 1, navTarget := some vid }
  | none => s

/-- Interval ticks.  Each list element is the settled response of the
status request issued by that tick.  A tick only runs while the page is
alive and the interval is uncancelled; a pending navigation fires first
because its delay (`graceDelayMs` = 1000 ms) is shorter than the next tick
(`pollIntervalMs` = 3000 ms). -/
def processTicks : List PollResult → PageState → PageState
  | [], s => s
  | r :: rs, s =>
    if s.destroyed then s
    else if s.pendingNav.isSome then s
    else if s.intervalActive then
      processTicks rs (checkJobStatus r { s with pollCount := s.pollCount + 1 })
    else s

/-- A full run of the polling page: mount with the first response, process
the interval ticks, then let any pending navigation timeout fire. -/
def runPage : List PollResult → PageState
  | [] => initialPage
  | r :: ticks =>
    let s := processTicks ticks (afterMount r)
    if s.destroyed then s else navigate s

/-- `onDestroy`: `if (intervalId) clearInterval(intervalId)`, run when the
hosting view is torn down. -/
def onDestroyPage (s : PageState) : PageState :=
  if s.intervalActive then { s with destroyed := true, intervalActive := false }
  else { s with destroyed := true }

/-- Message shown by the failed-status panel:
`{job.error || "An unknown error occurred"}` — JavaScript `||`, so a missing
OR empty `error` yields the fallback. -/
def failedPanelMessage (j : Job) : String :=
  match j.error with
  | some e => if e = "" then "An unknown error occurred" else e
  | none => "An unknown error occurred"

/-- A poll response that keeps the loop going: a successful status fetch in
a non-terminal state. -/
def nonTerminal (r : PollResult) : Prop :=
  ∃ j, r = .ok j ∧ (j.status = .pending ∨ j.status = .processing)

/-! ## Authenticated request gateway (`src/frontend/src/lib/api/client.ts`)

`fetchWithAuth(endpoint, options = \x7b\x7d)`, executing in the browser
(`browser = true`).  The persisted bearer token lives in
`localStorage['token']`, modelled as `Option String`.  A request is
described by when the network call settles (`settleMs`) and the HTTP
response it settles with; the abort timer fires at `effectiveTimeoutMs`
(`options.timeout || 20000` — note JavaScript `||`, so `timeout: 0` also
falls back to the 20 000 ms default) and, if it fires first, the `fetch`
rejects with `AbortError`, which the `catch` turns into the timeout error.
-/

/-- `FetchOptions` of `fetchWithAuth` (the `RequestInit` part is carried by
the network model). -/
structure FetchOptions where
  skipAuth : Bool := false
  timeout : Option Nat := none
deriving DecidableEq, Repr

/-- `const timeout = options.timeout || 20000;` -/
def effectiveTimeoutMs (o : FetchOptions) : Nat :=
  match o.timeout with
  | some t => if t = 0 then 20000 else t
  | none => 20000

/-- The three distinct failure paths of `fetchWithAuth`: the 401 branch,
the non-2xx branch, and the `AbortError` branch of the `catch`. -/
inductive FetchErr where
  | authRequired
  | requestFailed (msg : String)
  | timedOut
deriving DecidableEq, Repr

/-- The `Error.message` each failure path throws with. -/
def FetchErr.message : FetchErr → String
  | .authRequired => "Authentication required. Please log in."
  | .timedOut => "Request timed out. Please try again later."
  | .requestFailed m => m

/-- An HTTP response as consumed by `fetchWithAuth`: its status code, the
`detail` field of its JSON body when one parses (an unparseable body or a
body without `detail` is `none`), and the raw success body. -/
structure HttpResponse where
  status : Nat
  detail : Option String
  body : String
deriving DecidableEq, Repr

/-- `Authorization` header attached to the outgoing request:
`...(token ? \x7b Authorization: Bearer $token \x7d : \x7b\x7d)`, with the
token read from `localStorage` only when `skipAuth` is unset. -/
def authorizationHeader (token : Option String) (opts : FetchOptions) : Option String :=
  if opts.skipAuth then none
  else token.map (fun t => "Bearer " ++ t)

/-- `fetchWithAuth` on a request that settles at `settleMs` with `resp`.
Returns the call's outcome and the persisted token afterwards.
The 401 branch runs `localStorage.removeItem('token')` and throws; the
non-2xx branch throws `errorData.detail || "HTTP error <status>"`
(JavaScript `||`: an empty `detail` also falls back); a 2xx response's JSON
body is returned.  Nothing here touches the session store: `client.ts`
does not import it. -/
def fetchWithAuth (token : Option String) (opts : FetchOptions)
    (settleMs : Nat) (resp : HttpResponse) :
    Except FetchErr String × Option String :=
  if effectiveTimeoutMs opts < settleMs then
    (Except.error FetchErr.timedOut, token)
  else if resp.status = 401 then
    (Except.error FetchErr.authRequired, none)
  else if resp.status < 200 ∨ 299 < resp.status then
    (Except.error (FetchErr.requestFailed
      (match resp.detail with
       | some d => if d = "" then "HTTP error " ++ toString resp.status else d
       | none => "HTTP error " ++ toString resp.status)), token)
  else
    (Except.ok resp.body, token)

/-! ## Session state store (`src/frontend/src/lib/stores/auth.ts`)

The writable store value and the operations returned by `createAuthStore`,
with `browser = true`.  Each operation's asynchronous collaborators
(Firebase sign-in plus backend verification, `authApi.getProfile`) are
passed in as already-settled results. -/

/-- `User` from `frontend/src/lib/api/schema.ts`. -/
structure User where
  id : Nat
  username : String
  email : String
  display_name : Option String
  photo_url : Option String
  firebase_uid : Option String
  is_active : Bool
deriving DecidableEq, Repr

/-- The store value `{user, authenticated, loading, error}`. -/
structure AuthState where
  user : Option User
  authenticated : Bool
  loading : Bool
  error : Option String
deriving DecidableEq, Repr

/-- Store value at creation: `writable({user:null, authenticated:false,
loading:true, error:null})`. -/
def initialAuthState : AuthState :=
  { user := none, authenticated := false, loading := true, error := none }

/-- The in-memory store together with the persisted `localStorage` token. -/
abbrev AuthApp := AuthState × Option String

/-- `initialize()`: reads the persisted token; absent → settles
unauthenticated with no Gateway call; present → `authApi.getProfile()`
(one Gateway call), authenticated on success, token cleared and settled
unauthenticated (error swallowed) on failure.  The third component counts
the Gateway requests issued. -/
def initializeStore (storage : Option String) (profile : Except String User) :
    AuthState × Option String × Nat :=
  match storage with
  | none =>
    ({ user := none, authenticated := false, loading := false, error := none },
     none, 0)
  | some tk =>
    match profile with
    | .ok u =>
      ({ user := some u, authenticated := true, loading := false, error := none },
       some tk, 1)
    | .error _ =>
      ({ user := none, authenticated := false, loading := false, error := none },
       none, 1)

/-- `loginWithFirebase` / `loginWithGoogle`: Firebase sign-in yields a
token, the backend verifies it and yields the user; on success the token is
persisted and the store settles authenticated, on failure the store settles
unauthenticated with the error message and the persisted token is left
untouched. -/
def loginWithFirebase (app : AuthApp) (fb : Except String (String × User)) : AuthApp :=
  match fb with
  | .ok (tk, u) =>
    ({ user := some u, authenticated := true, loading := false, error := none },
     some tk)
  | .error msg =>
    ({ user := none, authenticated := false, loading := false, error := some msg },
     app.2)

/-- `loginWithToken(token)`: backend verification of a caller-supplied
token; persists it on success. -/
def loginWithToken (app : AuthApp) (token : String) (verify : Except String User) :
    AuthApp :=
  match verify with
  | .ok u =>
    ({ user := some u, authenticated := true, loading := false, error := none },
     some token)
  | .error msg =>
    ({ user := none, authenticated := false, loading := false, error := some msg },
     app.2)

/-- `loginDevelopment()`: dev-mode login; persists the literal
`'dev-token'` on success. -/
def loginDevelopment (app : AuthApp) (dev : Except String User) : AuthApp :=
  match dev with
  | .ok u =>
    ({ user := some u, authenticated := true, loading := false, error := none },
     some "dev-token")
  | .error msg =>
    ({ user := none, authenticated := false, loading := false, error := some msg },
     app.2)

/-- `logout()`: clears the persisted token, settles unauthenticated and
navigates home. -/
def logout (_app : AuthApp) : AuthApp :=
  ({ user := none, authenticated := false, loading := false, error := none }, none)

/-- `setError(error)`. -/
def setError (app : AuthApp) (msg : String) : AuthApp :=
  ({ app.1 with error := some msg }, app.2)

/-- `clearError()`. -/
def clearError (app : AuthApp) : AuthApp :=
  ({ app.1 with error := none }, app.2)

/-- One session-store operation, with the settled results of its external
collaborators as parameters.  `login` dispatches on the dev-auth
environment flags exactly like the source. -/
inductive AuthOp where
  | initializeOp (profile : Except String User)
  | loginOp (devAuth : Bool) (fb : Except String (String × User)) (dev : Except String User)
  | loginWithGoogleOp (fb : Except String (String × User))
  | loginWithTokenOp (token : String) (verify : Except String User)
  | loginDevelopmentOp (dev : Except String User)
  | logoutOp
  | setErrorOp (msg : String)
  | clearErrorOp
deriving Repr

/-- Apply a store operation to the store + persisted token. -/
def applyOp (op : AuthOp) (app : AuthApp) : AuthApp :=
  match op with
  | .initializeOp profile =>
    let r := initializeStore app.2 profile
    (r.1, r.2.1)
  | .loginOp devAuth fb dev =>
    if devAuth then loginDevelopment app dev else loginWithFirebase app fb
  | .loginWithGoogleOp fb => loginWithFirebase app fb
  | .loginWithTokenOp token verify => loginWithToken app token verify
  | .loginDevelopmentOp dev => loginDevelopment app dev
  | .logoutOp => logout app
  | .setErrorOp msg => setError app msg
  | .clearErrorOp => clearError app

/-- The spec's session invariant. -/
def authInvariant (app : AuthApp) : Prop :=
  app.1.authenticated = true → app.1.user.isSome ∧ app.2.isSome

/-- A Gateway call made from a running app: `client.ts` reads and writes
only `localStorage`; it does not import the session store, so the store
value rides along unchanged. -/
def gatewayStep (app : AuthApp) (opts : FetchOptions) (settleMs : Nat)
    (resp : HttpResponse) : Except FetchErr String × AuthApp :=
  let r := fetchWithAuth app.2 opts settleMs resp
  (r.1, (app.1, r.2))

/-! ## Result rendering branches (`src/routes/video/[videoId]/+page.svelte`)

The template dispatches on `videoResult.output_format` and then on the
presence of structured sub-fields of `videoResult.content`; presence is
JavaScript truthiness, and any array — including an empty one — is truthy,
so `Option` captures it (`null`/absent ↦ `none`). -/

/-- A section of structured content; the template reads `title` and the
format's list field. -/
structure ContentSection where
  title : String
  steps : List String
  bullets : List String
  paragraphs : List String
deriving DecidableEq, Repr

/-- The format-dependent `content` payload, as the template probes it. -/
structure Content where
  sections : Option (List ContentSection)
  steps : Option (List String)
  bullets : Option (List String)
  paragraphs : Option (List String)
  text : Option String
deriving DecidableEq, Repr

/-- `stats` of a processed video. -/
structure VideoStats where
  input_tokens : Nat
  output_tokens : Nat
  cost : ℚ
  mode : String
deriving DecidableEq, Repr

/-- A `ProcessedVideo` result payload. -/
structure ProcessedVideo where
  video_id : String
  title : String
  output_format : String
  content : Content
  stats : VideoStats
deriving DecidableEq, Repr

/-- The rendering branch the template selects. -/
inductive RenderBranch where
  | sectioned
  | flatBullets
  | flatParagraphs
  | rawJson
deriving DecidableEq, Repr

/-- Branch selection of the result template (lines 130–199 of the result
page): per format, sections first, then the flat field where the template
has one, then the raw-JSON `<pre>` dump. -/
def renderBranch (v : ProcessedVideo) : RenderBranch :=
  if v.output_format = "step_by_step" then
    match v.content.sections with
    | some _ => .sectioned
    | none => .rawJson
  else if v.output_format = "bullet_points" then
    match v.content.sections with
    | some _ => .sectioned
    | none =>
      match v.content.bullets with
      | some _ => .flatBullets
      | none => .rawJson
  else if v.output_format = "podcast_article" then
    match v.content.sections with
    | some _ => .sectioned
    | none =>
      match v.content.paragraphs with
      | some _ => .flatParagraphs
      | none => .rawJson
  else .rawJson

/-! ## YouTube id extraction (`src/frontend/src/lib/api/index.ts`)

```
function extractVideoId(url: string): string \x7b
  const regex = /(?:youtube\.com\/(?:[^\/]+\/.+\/|(?:v|e(?:mbed)?)\/|.*[?&]v=)|youtu\.be\/)([^"&?\/\s]\x7b11\x7d)/;
  const match = url.match(regex);
  if (match && match[1]) \x7b return match[1]; \x7d
  return url;
\x7d
```

The regex is embedded as an explicit backtracking matcher specialised to
this fixed pattern.  `url.match` scans start positions left to right
(`findCapture`); at a start position the two top-level alternatives are the
literals `youtube.com/` and `youtu.be/` (source order, disjoint); after
`youtube.com/` the three inner alternatives are tried in source order —
`[^\/]+\/.+\/` (`a1`), `(?:v|e(?:mbed)?)\/` (`a2`, trying `v/`, `embed/`,
`e/` in backtracking order), `.*[?&]v=` (`a3`) — where the greedy
quantifiers of `a1` and `a3` try their candidate splits longest-first and
fall through to the next candidate (and then the next alternative) when
the trailing capture `([^"&?\/\s]\x7b11\x7d)` fails.  In `a1`, `[^\/]+` is
forced to end at the first `/`; `.` matches everything except the
JavaScript line terminators. -/

/-- JavaScript `\s` (the `RegExp` whitespace class). -/
def jsSpace (c : Char) : Bool :=
  c == ' ' || c == '\t' || c == '\n' || c == '\r' || c == '\x0b' || c == '\x0c' ||
  c == '\u00a0' || c == '\u1680' ||
  (0x2000 ≤ c.toNat && c.toNat ≤ 0x200a) ||
  c == '\u2028' || c == '\u2029' || c == '\u202f' || c == '\u205f' ||
  c == '\u3000' || c == '\ufeff'

/-- The capture class `[^"&?\/\s]`. -/
def isIdChar (c : Char) : Bool :=
  !(c == '"' || c == '&' || c == '?' || c == '/' || jsSpace c)

/-- JavaScript `.` (anything but a line terminator). -/
def dotChar (c : Char) : Bool :=
  !(c == '\n' || c == '\r' || c == '\u2028' || c == '\u2029')

/-- The capture group `([^"&?\/\s]\x7b11\x7d)`: exactly eleven characters of
the class, whatever follows. -/
def captureEleven (s : List Char) : Option (List Char) :=
  if (s.take 11).length = 11 ∧ (s.take 11).all isIdChar then some (s.take 11)
  else none

/-- Split at the first `/`: the unique way `[^\/]+\/` can match (the
greedy `[^\/]+` cannot cross a `/` and must stop right before one). -/
def splitFirstSlash : List Char → Option (List Char × List Char)
  | [] => none
  | c :: cs =>
    if c = '/' then some ([], cs)
    else (splitFirstSlash cs).map (fun p => (c :: p.1, p.2))

/-- All decompositions `l = b ++ slash :: r`, in increasing `b`-length
order (so `reverse` is the greedy backtracking order of `.+\/`). -/
def slashSplits : List Char → List (List Char × List Char)
  | [] => []
  | c :: cs =>
    (if c = '/' then [(([] : List Char), cs)] else [])
      ++ (slashSplits cs).map (fun p => (c :: p.1, p.2))

/-- All decompositions `l = p ++ q :: v :: eq :: r` with `q ∈ [?&]`,
`v = 'v'`, `eq = '='`, in increasing `p`-length order (so `reverse` is the
greedy backtracking order of `.*[?&]v=`). -/
def qvSplits : List Char → List (List Char × List Char)
  | [] => []
  | c :: cs =>
    (match cs with
     | c1 :: c2 :: r =>
       if (c = '?' ∨ c = '&') ∧ c1 = 'v' ∧ c2 = '=' then [(([] : List Char), r)]
       else []
     | _ => [])
      ++ (qvSplits cs).map (fun p => (c :: p.1, p.2))

/-- Inner alternative 1, `[^\/]+\/.+\/` followed by the capture. -/
def a1 (t : List Char) : Option (List Char) :=
  match splitFirstSlash t with
  | none => none
  | some (a, rest) =>
    if a.isEmpty then none
    else
      ((slashSplits rest).reverse.filterMap
        (fun p => if !p.1.isEmpty && p.1.all dotChar then captureEleven p.2
                  else none)).head?

/-- Inner alternative 2, `(?:v|e(?:mbed)?)\/` followed by the capture
(backtracking order `v/`, `embed/`, `e/`). -/
def a2 (t : List Char) : Option (List Char) :=
  if ['v', '/'].isPrefixOf t then captureEleven (t.drop 2)
  else
    match (if ['e', 'm', 'b', 'e', 'd', '/'].isPrefixOf t then
             captureEleven (t.drop 6)
           else none) with
    | some r => some r
    | none => if ['e', '/'].isPrefixOf t then captureEleven (t.drop 2) else none

/-- Inner alternative 3, `.*[?&]v=` followed by the capture. -/
def a3 (t : List Char) : Option (List Char) :=
  ((qvSplits t).reverse.filterMap
    (fun p => if p.1.all dotChar then captureEleven p.2 else none)).head?

/-- The group after the literal `youtube.com/`, alternatives in source
order. -/
def matchAfterYoutube (t : List Char) : Option (List Char) :=
  match a1 t with
  | some r => some r
  | none =>
    match a2 t with
    | some r => some r
    | none => a3 t

/-- One attempt at a fixed start position. -/
def matchHere (s : List Char) : Option (List Char) :=
  if "youtube.com/".data.isPrefixOf s then matchAfterYoutube (s.drop 12)
  else if "youtu.be/".data.isPrefixOf s then captureEleven (s.drop 9)
  else none

/-- `url.match(regex)`: leftmost match wins. -/
def findCapture : List Char → Option (List Char)
  | [] => none
  | c :: cs =>
    match matchHere (c :: cs) with
    | some r => some r
    | none => findCapture cs

/-- `extractVideoId`: the capture when the regex matches, the raw input
unchanged otherwise. -/
def extractVideoId (url : String) : String :=
  match findCapture url.data with
  | some cap => String.mk cap
  | none => url

/-! ## Submission form validator
(`src/frontend/src/lib/components/video/VideoProcessForm.svelte`)

```
function isValidYoutubeUrl(url: string): boolean \x7b
  const regExp = /^(?:https?:\/\/)?(?:www\.)?(?:youtube\.com\/(?:watch\?v=|embed\/)|youtu\.be\/)([a-zA-Z0-9_-]\x7b11\x7d)$/;
  return regExp.test(url);
\x7d
```

The pattern is anchored and its two optional groups are deterministic: a
string starting with `https://` or `http://` cannot also start with
`www.`, `youtube.com/` or `youtu.be/` (and vice versa), so greedy
stripping of the optional prefixes is exact. -/

/-- `[a-zA-Z0-9_-]`, the id class of the validator. -/
def ytIdChar (c : Char) : Bool :=
  c.isAlpha || c.isDigit || c == '_' || c == '-'

/-- Strip the optional `(?:https?:\/\/)?`. -/
def stripProto (s : List Char) : List Char :=
  if "https://".data.isPrefixOf s then s.drop 8
  else if "http://".data.isPrefixOf s then s.drop 7
  else s

/-- Strip the optional `(?:www\.)?`. -/
def stripWww (s : List Char) : List Char :=
  if "www.".data.isPrefixOf s then s.drop 4 else s

/-- `([a-zA-Z0-9_-]\x7b11\x7d)$`: the rest is exactly an eleven-character
id. -/
def idTail (s : List Char) : Bool :=
  s.length = 11 && s.all ytIdChar

/-- The anchored host alternatives with their captured tail. -/
def hostCapture (s : List Char) : Option (List Char) :=
  if "youtube.com/watch?v=".data.isPrefixOf s then
    (if idTail (s.drop 20) then some (s.drop 20) else none)
  else if "youtube.com/embed/".data.isPrefixOf s then
    (if idTail (s.drop 18) then some (s.drop 18) else none)
  else if "youtu.be/".data.isPrefixOf s then
    (if idTail (s.drop 9) then some (s.drop 9) else none)
  else none

/-- `isValidYoutubeUrl`. -/
def isValidYoutubeUrl (url : String) : Bool :=
  (hostCapture (stripWww (stripProto url.data))).isSome

/-- An eleven-character id over the valid YouTube id alphabet. -/
def validId (id : List Char) : Prop :=
  id.length = 11 ∧ ∀ c ∈ id, ytIdChar c = true

/-! ## Theorems -/

/-! ### Behaviour of the tick driver -/

lemma processTicks_destroyed (l : List PollResult) (s : PageState)
    (h : s.destroyed = true) : processTicks l s = s := by
  cases l with
  | nil => rfl
  | cons r rs => simp [processTicks, h]

lemma processTicks_nav (l : List PollResult) (s : PageState)
    (h : s.pendingNav.isSome) : processTicks l s = s := by
  cases l with
  | nil => rfl
  | cons r rs => simp [processTicks, h]

lemma processTicks_stopped (l : List PollResult) (s : PageState)
    (hi : s.intervalActive = false) (hn : s.pendingNav = none) :
    processTicks l s = s := by
  cases l with
  | nil => rfl
  | cons r rs => simp [processTicks, hi, hn]

/-- Feeding a live loop a run of non-terminal responses just records the
last job seen and counts the polls; the loop stays live and goes on to the
remaining ticks. -/
lemma processTicks_append_nonTerminal (pre : List PollResult) :
    ∀ (l : List PollResult) (s : PageState), (∀ r ∈ pre, nonTerminal r) →
      s.intervalActive = true → s.pendingNav = none → s.destroyed = false →
      ∃ jb, processTicks (pre ++ l) s
        = processTicks l { s with job := jb, pollCount := s.pollCount + pre.length } := by
  induction pre with
  | nil =>
    intro l s _ _ _ _
    exact ⟨s.job, by simp⟩
  | cons r pre ih =>
    intro l s hpre hi hn hd
    obtain ⟨j', hr, hst⟩ := hpre r (List.mem_cons_self r pre)
    subst hr
    have hstep : processTicks ((PollResult.ok j' :: pre) ++ l) s
        = processTicks (pre ++ l) { s with job := some j', pollCount := s.pollCount + 1 } := by
      rcases hst with h | h <;>
        simp [processTicks, hd, hn, hi, checkJobStatus, h]
    obtain ⟨jb, hjb⟩ := ih l { s with job := some j', pollCount := s.pollCount + 1 }
      (fun r hr => hpre r (List.mem_cons_of_mem _ hr)) (by simpa using hi) (by simpa using hn)
      (by simpa using hd)
    refine ⟨jb, ?_⟩
    rw [hstep, hjb]
    have : s.pollCount + 1 + pre.length = s.pollCount + (pre.length + 1) := by omega
    simp [this]

/-- A live loop fed non-terminal responses and then a `completed` one stops
polling and schedules the navigation to the job's `video_id`. -/
lemma processTicks_completed (pre extra : List PollResult) (j : Job)
    (s : PageState) (hpre : ∀ r ∈ pre, nonTerminal r)
    (hj : j.status = .completed)
    (hi : s.intervalActive = true) (hn : s.pendingNav = none)
    (hd : s.destroyed = false) :
    processTicks (pre ++ PollResult.ok j :: extra) s
      = { s with job := some j, intervalActive := false,
                 pendingNav := some j.video_id,
                 pollCount := s.pollCount + (pre.length + 1) } := by
  obtain ⟨jb, hjb⟩ := processTicks_append_nonTerminal pre (PollResult.ok j :: extra) s hpre hi hn hd
  rw [hjb]
  have hstep : processTicks (PollResult.ok j :: extra)
      { s with job := jb, pollCount := s.pollCount + pre.length }
      = processTicks extra
          { s with job := some j, intervalActive := false,
                   pendingNav := some j.video_id,
                   pollCount := s.pollCount + (pre.length + 1) } := by
    simp [processTicks, hd, hn, hi, checkJobStatus, hj, Nat.add_assoc]
  rw [hstep, processTicks_nav]
  simp

/-- A live loop fed non-terminal responses and then a `failed` one stops
polling with the failed job recorded and nothing else scheduled. -/
lemma processTicks_failed (pre extra : List PollResult) (j : Job)
    (s : PageState) (hpre : ∀ r ∈ pre, nonTerminal r)
    (hj : j.status = .failed)
    (hi : s.intervalActive = true) (hn : s.pendingNav = none)
    (hd : s.destroyed = false) :
    processTicks (pre ++ PollResult.ok j :: extra) s
      = { s with job := some j, intervalActive := false,
                 pollCount := s.pollCount + (pre.length + 1) } := by
  obtain ⟨jb, hjb⟩ := processTicks_append_nonTerminal pre (PollResult.ok j :: extra) s hpre hi hn hd
  rw [hjb]
  have hstep : processTicks (PollResult.ok j :: extra)
      { s with job := jb, pollCount := s.pollCount + pre.length }
      = processTicks extra
          { s with job := some j, intervalActive := false,
                   pollCount := s.pollCount + (pre.length + 1) } := by
    simp [processTicks, hd, hn, hi, checkJobStatus, hj, Nat.add_assoc]
  rw [hstep, processTicks_stopped] <;> simp [hn]

/-- A live loop fed non-terminal responses and then a gateway failure stops
polling with the error message surfaced. -/
lemma processTicks_err (pre extra : List PollResult) (m : String)
    (s : PageState) (hpre : ∀ r ∈ pre, nonTerminal r)
    (hi : s.intervalActive = true) (hn : s.pendingNav = none)
    (hd : s.destroyed = false) :
    ∃ jb, processTicks (pre ++ PollResult.err m :: extra) s
      = { s with job := jb, error := some m, intervalActive := false,
                 pollCount := s.pollCount + (pre.length + 1) } := by
  obtain ⟨jb, hjb⟩ := processTicks_append_nonTerminal pre (PollResult.err m :: extra) s hpre hi hn hd
  refine ⟨jb, ?_⟩
  rw [hjb]
  have hstep : processTicks (PollResult.err m :: extra)
      { s with job := jb, pollCount := s.pollCount + pre.length }
      = processTicks extra
          { s with job := jb, error := some m, intervalActive := false,
                   pollCount := s.pollCount + (pre.length + 1) } := by
    simp [processTicks, hd, hn, hi, checkJobStatus, Nat.add_assoc]
  rw [hstep, processTicks_stopped] <;> simp [hn]

/-- `afterMount` on a non-terminal first response: job recorded, interval
started, nothing terminal. -/
lemma afterMount_nonTerminal (j' : Job)
    (hst : j'.status = JobState.pending ∨ j'.status = JobState.processing) :
    afterMount (PollResult.ok j')
      = { job := some j', error := none, intervalActive := true,
          pendingNav := none, destroyed := false, pollCount := 1,
          resultFetches := 0, navTarget := none } := by
  rcases hst with h | h <;> simp [afterMount, checkJobStatus, h, initialPage]

/-- A run consisting only of non-terminal responses never navigates and
never fetches a result. -/
lemma runPage_nonTerminal (pre : List PollResult)
    (hpre : ∀ r ∈ pre, nonTerminal r) :
    (runPage pre).resultFetches = 0 ∧ (runPage pre).navTarget = none := by
  cases pre with
  | nil => simp [runPage, initialPage]
  | cons r pre' =>
    obtain ⟨j', hr, hst⟩ := hpre r (List.mem_cons_self r pre')
    subst hr
    have hlive := afterMount_nonTerminal j' hst
    obtain ⟨jb, hjb⟩ := processTicks_append_nonTerminal pre' [] (afterMount (PollResult.ok j'))
      (fun r hr => hpre r (List.mem_cons_of_mem _ hr))
      (by rw [hlive]) (by rw [hlive]) (by rw [hlive])
    rw [List.append_nil, hlive] at hjb
    simp only [processTicks] at hjb
    constructor <;> simp [runPage, hlive, hjb, navigate]

/-- **C1**: for every sequence of poll responses whose first terminal
response is `completed`, the client stops issuing status polls after that
response (even if further ticks would have been available), navigates to
the result view keyed by the job's `video_id` once the grace delay fires,
and performs exactly one result fetch — none before the `completed`
response. -/
theorem C1_completed_stops_polling_and_fetches_once
    (pre extra : List PollResult) (j : Job)
    (hpre : ∀ r ∈ pre, nonTerminal r) (hj : j.status = JobState.completed) :
    (runPage (pre ++ PollResult.ok j :: extra)).pollCount = pre.length + 1 ∧
    (runPage (pre ++ PollResult.ok j :: extra)).navTarget = some j.video_id ∧
    (runPage (pre ++ PollResult.ok j :: extra)).resultFetches = 1 ∧
    (runPage (pre ++ PollResult.ok j :: extra)).intervalActive = false ∧
    (runPage pre).resultFetches = 0 ∧ (runPage pre).navTarget = none := by
  have hrest := runPage_nonTerminal pre hpre
  cases pre with
  | nil =>
    have hmount : afterMount (PollResult.ok j)
        = { job := some j, error := none, intervalActive := true,
            pendingNav := some j.video_id, destroyed := false, pollCount := 1,
            resultFetches := 0, navTarget := none } := by
      simp [afterMount, checkJobStatus, hj, initialPage]
    refine ⟨?_, ?_, ?_, ?_, hrest.1, hrest.2⟩ <;>
      simp [runPage, hmount, processTicks_nav, navigate]
  | cons r pre' =>
    obtain ⟨j', hr, hst⟩ := hpre r (List.mem_cons_self r pre')
    subst hr
    have hlive := afterMount_nonTerminal j' hst
    have hcomp := processTicks_completed pre' extra j (afterMount (PollResult.ok j'))
      (fun r hr => hpre r (List.mem_cons_of_mem _ hr)) hj
      (by rw [hlive]) (by rw [hlive]) (by rw [hlive])
    rw [hlive] at hcomp
    refine ⟨?_, ?_, ?_, ?_, hrest.1, hrest.2⟩ <;>
      (simp [runPage, hlive, hcomp, navigate]; try omega)

/-- Witness for C1: the spec's own example sequence
`[pending(0.1), processing(0.5), completed(1.0)]`. -/
theorem C1_completed_stops_polling_and_fetches_once_witness :
    (runPage [PollResult.ok ⟨.pending, 1/10, none, "vid00000000"⟩,
              PollResult.ok ⟨.processing, 1/2, none, "vid00000000"⟩,
              PollResult.ok ⟨.completed, 1, none, "vid00000000"⟩]).pollCount = 3 ∧
    (runPage [PollResult.ok ⟨.pending, 1/10, none, "vid00000000"⟩,
              PollResult.ok ⟨.processing, 1/2, none, "vid00000000"⟩,
              PollResult.ok ⟨.completed, 1, none, "vid00000000"⟩]).navTarget
      = some "vid00000000" ∧
    (runPage [PollResult.ok ⟨.pending, 1/10, none, "vid00000000"⟩,
              PollResult.ok ⟨.processing, 1/2, none, "vid00000000"⟩,
              PollResult.ok ⟨.completed, 1, none, "vid00000000"⟩]).resultFetches = 1 := by
  have h := C1_completed_stops_polling_and_fetches_once
    [PollResult.ok ⟨.pending, 1/10, none, "vid00000000"⟩,
     PollResult.ok ⟨.processing, 1/2, none, "vid00000000"⟩]
    [] ⟨.completed, 1, none, "vid00000000"⟩
    (by
      intro r hr
      simp only [List.mem_cons, List.not_mem_nil, or_false] at hr
      rcases hr with rfl | rfl
      · exact ⟨_, rfl, Or.inl rfl⟩
      · exact ⟨_, rfl, Or.inr rfl⟩)
    rfl
  exact ⟨h.1, h.2.1, h.2.2.1⟩

/-- **C5**: tearing down the polling view clears the pending poll timer in
every machine state: after `onDestroy` has run, later poll intervals change
nothing, so no further status request is ever issued. -/
theorem C5_teardown_clears_timer (s : PageState) (ticks : List PollResult) :
    processTicks ticks (onDestroyPage s) = onDestroyPage s ∧
    (onDestroyPage s).pollCount = s.pollCount ∧
    (onDestroyPage s).intervalActive = false := by
  have hd : (onDestroyPage s).destroyed = true := by
    unfold onDestroyPage
    split <;> rfl
  refine ⟨processTicks_destroyed ticks _ hd, ?_, ?_⟩
  · unfold onDestroyPage
    split <;> rfl
  · unfold onDestroyPage
    split
    · rfl
    · next h => simpa using h

/-- **C2, counterexample**: the claim fails on the code in two ways.
First, the failed-status panel renders the JavaScript expression
`job.error || "An unknown error occurred"`, so a *present but empty*
`job.error` surfaces the generic fallback rather than `job.error` itself.
Second, when the very first (mount-time) status fetch fails, `checkJobStatus`
calls `clearInterval(intervalId)` while `intervalId` is still `undefined`
and `onMount` then starts the interval anyway, so a further status poll IS
issued one interval later instead of polling stopping immediately. -/
theorem C2_failed_message_counterexample :
    (failedPanelMessage ⟨.failed, 1, some "", "v"⟩ = "An unknown error occurred" ∧
     failedPanelMessage ⟨.failed, 1, some "", "v"⟩ ≠ "") ∧
    (runPage [PollResult.err "network error", PollResult.err "network error"]).pollCount
      = 2 := by
  refine ⟨⟨rfl, by decide⟩, rfl⟩

/-- **C2 (amended)**: for a `failed` status or a gateway failure arriving on
an *interval* poll tick (any tick after the mount-time fetch), the client
stops polling at once — no further status request is issued, with no retry —
and surfaces a message; for `status == failed` the surfaced panel message
equals `job.error` exactly when it is present *and non-empty*, and the
generic fallback `"An unknown error occurred"` otherwise. -/
theorem C2_terminal_tick_stops_polling (r0 : PollResult) (pre extra : List PollResult)
    (hr0 : nonTerminal r0) (hpre : ∀ r ∈ pre, nonTerminal r) :
    (∀ j : Job, j.status = JobState.failed →
      (runPage (r0 :: pre ++ PollResult.ok j :: extra)).pollCount = pre.length + 2 ∧
      (runPage (r0 :: pre ++ PollResult.ok j :: extra)).intervalActive = false ∧
      (runPage (r0 :: pre ++ PollResult.ok j :: extra)).job = some j ∧
      (runPage (r0 :: pre ++ PollResult.ok j :: extra)).navTarget = none ∧
      (runPage (r0 :: pre ++ PollResult.ok j :: extra)).resultFetches = 0 ∧
      (∀ e, j.error = some e → e ≠ "" → failedPanelMessage j = e) ∧
      ((j.error = none ∨ j.error = some "") →
        failedPanelMessage j = "An unknown error occurred")) ∧
    (∀ m : String,
      (runPage (r0 :: pre ++ PollResult.err m :: extra)).pollCount = pre.length + 2 ∧
      (runPage (r0 :: pre ++ PollResult.err m :: extra)).intervalActive = false ∧
      (runPage (r0 :: pre ++ PollResult.err m :: extra)).error = some m ∧
      (runPage (r0 :: pre ++ PollResult.err m :: extra)).navTarget = none ∧
      (runPage (r0 :: pre ++ PollResult.err m :: extra)).resultFetches = 0) := by
  obtain ⟨j0, hr, hst⟩ := hr0
  subst hr
  have hlive := afterMount_nonTerminal j0 hst
  constructor
  · intro j hj
    have hfail := processTicks_failed pre extra j (afterMount (PollResult.ok j0))
      hpre hj (by rw [hlive]) (by rw [hlive]) (by rw [hlive])
    rw [hlive] at hfail
    refine ⟨?_, ?_, ?_, ?_, ?_, ?_, ?_⟩
    · simp [runPage, hlive, hfail, navigate]
      omega
    · simp [runPage, hlive, hfail, navigate]
    · simp [runPage, hlive, hfail, navigate]
    · simp [runPage, hlive, hfail, navigate]
    · simp [runPage, hlive, hfail, navigate]
    · intro e he hne
      simp [failedPanelMessage, he, hne]
    · rintro (he | he) <;> simp [failedPanelMessage, he]
  · intro m
    obtain ⟨jb, herr⟩ := processTicks_err pre extra m (afterMount (PollResult.ok j0))
      hpre (by rw [hlive]) (by rw [hlive]) (by rw [hlive])
    rw [hlive] at herr
    refine ⟨?_, ?_, ?_, ?_, ?_⟩ <;> simp [runPage, hlive, herr, navigate]
    omega

/-- Witness for the amended C2: the spec's own example — a `failed` response
with `error = "decode error"` arriving on the second tick surfaces exactly
`"decode error"` and stops the polls at 2; a gateway failure on the second
tick likewise stops the polls at 2. -/
theorem C2_terminal_tick_stops_polling_witness :
    (runPage [PollResult.ok ⟨.pending, 1/10, none, "v"⟩,
              PollResult.ok ⟨.failed, 1/2, some "decode error", "v"⟩]).pollCount = 2 ∧
    failedPanelMessage ⟨.failed, 1/2, some "decode error", "v"⟩ = "decode error" ∧
    (runPage [PollResult.ok ⟨.pending, 1/10, none, "v"⟩,
              PollResult.err "Request timed out. Please try again later."]).pollCount
      = 2 := by
  have h := C2_terminal_tick_stops_polling (PollResult.ok ⟨.pending, 1/10, none, "v"⟩)
    [] [] ⟨_, rfl, Or.inl rfl⟩ (by intro r hr; cases hr)
  refine ⟨(h.1 ⟨.failed, 1/2, some "decode error", "v"⟩ rfl).1,
    (h.1 ⟨.failed, 1/2, some "decode error", "v"⟩ rfl).2.2.2.2.2.1 "decode error" rfl
      (by decide),
    (h.2 "Request timed out. Please try again later.").1⟩

/-- **C7**: `initialize()` with no persisted token settles the store to
exactly `{user:null, authenticated:false, loading:false, error:null}` and
issues no Gateway request, whatever the profile endpoint would have
answered. -/
theorem C7_initialize_without_token (profile : Except String User) :
    initializeStore none profile
      = ({ user := none, authenticated := false, loading := false, error := none },
         none, 0) := by
  rfl

/-- **C8**: `authenticated == true → user present ∧ token persisted` holds
in the initial store state (with any persisted token) and is preserved by
every store operation, on success and failure paths alike. -/
theorem C8_auth_invariant_preserved :
    (∀ st : Option String, authInvariant (initialAuthState, st)) ∧
    (∀ (op : AuthOp) (app : AuthApp), authInvariant app → authInvariant (applyOp op app)) := by
  constructor
  · intro st h
    simp [initialAuthState] at h
  · intro op app hinv
    cases op with
    | initializeOp profile =>
      cases happ : app.2 with
      | none => intro h; simp_all [applyOp, initializeStore]
      | some tk =>
        cases profile with
        | ok u => intro _; simp [applyOp, initializeStore, happ]
        | error m => intro h; simp_all [applyOp, initializeStore]
    | loginOp devAuth fb dev =>
      cases devAuth with
      | true =>
        cases dev with
        | ok u => intro _; simp [applyOp, loginDevelopment]
        | error m => intro h; simp_all [applyOp, loginDevelopment]
      | false =>
        cases fb with
        | ok p => intro _; simp [applyOp, loginWithFirebase]
        | error m => intro h; simp_all [applyOp, loginWithFirebase]
    | loginWithGoogleOp fb =>
      cases fb with
      | ok p => intro _; simp [applyOp, loginWithFirebase]
      | error m => intro h; simp_all [applyOp, loginWithFirebase]
    | loginWithTokenOp token verify =>
      cases verify with
      | ok u => intro _; simp [applyOp, loginWithToken]
      | error m => intro h; simp_all [applyOp, loginWithToken]
    | loginDevelopmentOp dev =>
      cases dev with
      | ok u => intro _; simp [applyOp, loginDevelopment]
      | error m => intro h; simp_all [applyOp, loginDevelopment]
    | logoutOp => intro h; simp_all [applyOp, logout]
    | setErrorOp msg =>
      intro h
      have := hinv (by simpa [applyOp, setError] using h)
      simpa [applyOp, setError] using this
    | clearErrorOp =>
      intro h
      have := hinv (by simpa [applyOp, clearError] using h)
      simpa [applyOp, clearError] using this

/-- Witness for C8: the invariant-preservation part applied to a concrete
successful `loginWithToken` from the initial state. -/
theorem C8_auth_invariant_preserved_witness :
    authInvariant (applyOp
      (AuthOp.loginWithTokenOp "tok"
        (Except.ok ⟨1, "u", "u@example.com", none, none, none, true⟩))
      (initialAuthState, none)) := by
  exact C8_auth_invariant_preserved.2 _ _ (by intro h; simp [initialAuthState] at h)

/-- **C3, counterexample**: after a successful `loginWithToken`, a Gateway
call answered with HTTP 401 clears the persisted token and fails with the
`AuthenticationRequired` error — but the Session Store is NOT transitioned
to unauthenticated: `fetchWithAuth` never touches the store, so
`authenticated` is still `true` afterwards, contradicting the claim. -/
theorem C3_401_store_counterexample :
    ((applyOp (AuthOp.loginWithTokenOp "tok"
        (Except.ok ⟨1, "u", "u@example.com", none, none, none, true⟩))
        (initialAuthState, none)).1.authenticated = true) ∧
    ((gatewayStep (applyOp (AuthOp.loginWithTokenOp "tok"
        (Except.ok ⟨1, "u", "u@example.com", none, none, none, true⟩))
        (initialAuthState, none)) {} 0 ⟨401, none, ""⟩).1
      = Except.error FetchErr.authRequired) ∧
    ((gatewayStep (applyOp (AuthOp.loginWithTokenOp "tok"
        (Except.ok ⟨1, "u", "u@example.com", none, none, none, true⟩))
        (initialAuthState, none)) {} 0 ⟨401, none, ""⟩).2.2 = none) ∧
    ((gatewayStep (applyOp (AuthOp.loginWithTokenOp "tok"
        (Except.ok ⟨1, "u", "u@example.com", none, none, none, true⟩))
        (initialAuthState, none)) {} 0 ⟨401, none, ""⟩).2.1.authenticated = true) := by
  refine ⟨rfl, ?_, ?_, rfl⟩ <;> rfl

/-- **C3 (amended)**: for every Gateway request whose HTTP response is 401
(and which settles before the abort timer), the persisted bearer token is
cleared and the call fails with the error whose message is
`"Authentication required. Please log in."`; the in-memory Session Store is
left exactly as it was — it is not transitioned to unauthenticated by the
Gateway. -/
theorem C3_401_clears_token_and_fails (app : AuthApp) (opts : FetchOptions)
    (settleMs : Nat) (resp : HttpResponse)
    (hsettle : settleMs ≤ effectiveTimeoutMs opts) (h401 : resp.status = 401) :
    (gatewayStep app opts settleMs resp).1 = Except.error FetchErr.authRequired ∧
    (gatewayStep app opts settleMs resp).2.2 = none ∧
    (gatewayStep app opts settleMs resp).2.1 = app.1 ∧
    FetchErr.message FetchErr.authRequired
      = "Authentication required. Please log in." := by
  have hno : ¬ effectiveTimeoutMs opts < settleMs := by omega
  refine ⟨?_, ?_, rfl, rfl⟩ <;> simp [gatewayStep, fetchWithAuth, hno, h401]

/-- Witness for the amended C3: a concrete authenticated app hit by a 401
that settles instantly. -/
theorem C3_401_clears_token_and_fails_witness :
    (gatewayStep (⟨⟨some ⟨1, "u", "u@example.com", none, none, none, true⟩,
        true, false, none⟩, some "tok"⟩) {} 5 ⟨401, none, ""⟩).1
      = Except.error FetchErr.authRequired ∧
    (gatewayStep (⟨⟨some ⟨1, "u", "u@example.com", none, none, none, true⟩,
        true, false, none⟩, some "tok"⟩) {} 5 ⟨401, none, ""⟩).2.2 = none := by
  have h := C3_401_clears_token_and_fails
    (⟨⟨some ⟨1, "u", "u@example.com", none, none, none, true⟩, true, false, none⟩,
      some "tok"⟩) {} 5 ⟨401, none, ""⟩ (by decide) rfl
  exact ⟨h.1, h.2.1⟩

/-- **C6, counterexample**: a request made without an explicit timeout
option uses a 20 000 ms abort timer, not the 30 000 ms the claim states
(`const timeout = options.timeout || 20000`). -/
theorem C6_default_timeout_counterexample :
    effectiveTimeoutMs {} = 20000 ∧ (20000 : Nat) ≠ 30000 := by
  exact ⟨rfl, by decide⟩

/-- **C6 (amended)**: the default abort timer is 20 000 ms; for every
request, if the timer fires before the network call settles the call fails
with the Timeout error `"Request timed out. Please try again later."`,
which is a distinct failure from every `RequestFailed` raised for a non-2xx
response. -/
theorem C6_timeout_behaviour (token : Option String) (opts : FetchOptions)
    (settleMs : Nat) (resp : HttpResponse)
    (hfires : effectiveTimeoutMs opts < settleMs) :
    (fetchWithAuth token opts settleMs resp).1 = Except.error FetchErr.timedOut ∧
    FetchErr.message FetchErr.timedOut = "Request timed out. Please try again later." ∧
    (∀ m, FetchErr.timedOut ≠ FetchErr.requestFailed m) ∧
    effectiveTimeoutMs { opts with timeout := none } = 20000 := by
  refine ⟨?_, rfl, ?_, rfl⟩
  · simp [fetchWithAuth, hfires]
  · intro m h
    cases h

/-- Witness for the amended C6: a request with the default options whose
network call settles only after 25 s — past the 20 s timer. -/
theorem C6_timeout_behaviour_witness :
    (fetchWithAuth (some "tok") {} 25000 ⟨200, none, "body"⟩).1
      = Except.error FetchErr.timedOut := by
  exact (C6_timeout_behaviour (some "tok") {} 25000 ⟨200, none, "body"⟩ (by decide)).1

/-- **C9**: for a `ProcessedVideo` with `output_format = "bullet_points"`,
a present `sections` renders the sectioned-bullets branch; absent
`sections` with present `bullets` renders the flat-bullets branch (not the
raw-JSON fallback); both absent renders the raw-JSON fallback. -/
theorem C9_bullet_points_branches (v : ProcessedVideo)
    (hf : v.output_format = "bullet_points") :
    (∀ s, v.content.sections = some s → renderBranch v = RenderBranch.sectioned) ∧
    (∀ b, v.content.sections = none → v.content.bullets = some b →
      renderBranch v = RenderBranch.flatBullets) ∧
    (v.content.sections = none → v.content.bullets = none →
      renderBranch v = RenderBranch.rawJson) := by
    refine ⟨?_, ?_, ?_⟩
    · intro s hs
      simp [renderBranch, hf, hs]
    · intro b hs hb
      simp [renderBranch, hf, hs, hb]
    · intro hs hb
      simp [renderBranch, hf, hs, hb]

/-- Witness for C9: the spec's round-trip example — `content={bullets:[...]}`
with no `sections` renders flat bullets; removing `bullets` too forces the
raw-JSON fallback. -/
theorem C9_bullet_points_branches_witness :
    renderBranch ⟨"v", "t", "bullet_points",
      ⟨none, none, some ["a", "b"], none, none⟩, ⟨1, 1, 0, "simple"⟩⟩
      = RenderBranch.flatBullets ∧
    renderBranch ⟨"v", "t", "bullet_points",
      ⟨none, none, none, none, none⟩, ⟨1, 1, 0, "simple"⟩⟩
      = RenderBranch.rawJson := by
  exact ⟨(C9_bullet_points_branches _ rfl).2.1 ["a", "b"] rfl rfl,
    (C9_bullet_points_branches _ rfl).2.2 rfl rfl⟩

/-! ### Character-class facts -/

lemma ytIdChar_toNat_lt (c : Char) (h : ytIdChar c = true) : c.toNat < 128 := by
  simp [ytIdChar, Char.isAlpha, Char.isUpper, Char.isLower, Char.isDigit] at h
  rcases h with (((⟨h1, h2⟩ | ⟨h1, h2⟩) | ⟨h1, h2⟩) | h) | h
  · have hn : c.toNat ≤ 90 := by exact_mod_cast h2
    omega
  · have hn : c.toNat ≤ 122 := by exact_mod_cast h2
    omega
  · have hn : c.toNat ≤ 57 := by exact_mod_cast h2
    omega
  · subst h; decide
  · subst h; decide

lemma ytIdChar_beq_false (c : Char) (h : ytIdChar c = true)
    (x : Char) (hx : ytIdChar x = false) : (c == x) = false := by
  refine beq_eq_false_iff_ne.mpr ?_
  intro e; subst e; rw [h] at hx; cases hx

lemma ytIdChar_ne (c : Char) (h : ytIdChar c = true)
    (x : Char) (hx : ytIdChar x = false) : c ≠ x := by
  intro e; subst e; rw [h] at hx; cases hx

lemma jsSpace_eq_false (c : Char) (h : ytIdChar c = true) : jsSpace c = false := by
  have hlt := ytIdChar_toNat_lt c h
  have hr : ¬ ((0x2000 : Nat) ≤ c.toNat) := by omega
  simp [jsSpace, hr,
    ytIdChar_beq_false c h ' ' (by decide), ytIdChar_beq_false c h '\t' (by decide),
    ytIdChar_beq_false c h '\n' (by decide), ytIdChar_beq_false c h '\r' (by decide),
    ytIdChar_beq_false c h '\x0b' (by decide), ytIdChar_beq_false c h '\x0c' (by decide),
    ytIdChar_beq_false c h '\u00a0' (by decide), ytIdChar_beq_false c h '\u1680' (by decide),
    ytIdChar_beq_false c h '\u2028' (by decide), ytIdChar_beq_false c h '\u2029' (by decide),
    ytIdChar_beq_false c h '\u202f' (by decide), ytIdChar_beq_false c h '\u205f' (by decide),
    ytIdChar_beq_false c h '\u3000' (by decide), ytIdChar_beq_false c h '\ufeff' (by decide)]

lemma ytIdChar_isIdChar (c : Char) (h : ytIdChar c = true) : isIdChar c = true := by
  simp [isIdChar, jsSpace_eq_false c h,
    ytIdChar_beq_false c h '"' (by decide), ytIdChar_beq_false c h '&' (by decide),
    ytIdChar_beq_false c h '?' (by decide), ytIdChar_beq_false c h '/' (by decide)]

lemma captureEleven_full (id : List Char) (hv : validId id) :
    captureEleven id = some id := by
  obtain ⟨hlen, hid⟩ := hv
  have htake : id.take 11 = id := by rw [← hlen]; exact List.take_length id
  have hall : id.all isIdChar = true :=
    List.all_eq_true.mpr (fun c hc => ytIdChar_isIdChar c (hid c hc))
  simp [captureEleven, htake, hlen, hall]

lemma splitFirstSlash_eq_none (l : List Char) (h : ∀ c ∈ l, ¬ c = '/') :
    splitFirstSlash l = none := by
  induction l with
  | nil => rfl
  | cons c cs ih =>
    simp [splitFirstSlash, h c (List.mem_cons_self c cs),
      ih (fun x hx => h x (List.mem_cons_of_mem _ hx))]

lemma slashSplits_eq_nil (l : List Char) (h : ∀ c ∈ l, ¬ c = '/') :
    slashSplits l = [] := by
  induction l with
  | nil => rfl
  | cons c cs ih =>
    simp [slashSplits, h c (List.mem_cons_self c cs),
      ih (fun x hx => h x (List.mem_cons_of_mem _ hx))]

lemma qvSplits_eq_nil (l : List Char) (h : ∀ c ∈ l, ¬ (c = '?' ∨ c = '&')) :
    qvSplits l = [] := by
  induction l with
  | nil => rfl
  | cons c cs ih =>
    have hc := h c (List.mem_cons_self c cs)
    have ihcs := ih (fun x hx => h x (List.mem_cons_of_mem _ hx))
    cases cs with
    | nil => rfl
    | cons c1 cs1 =>
      cases cs1 with
      | nil => rfl
      | cons c2 r =>
        have hng : ¬ ((c = '?' ∨ c = '&') ∧ c1 = 'v' ∧ c2 = '=') :=
          fun hcon => hc hcon.1
        have hstep : qvSplits (c :: c1 :: c2 :: r)
            = (if (c = '?' ∨ c = '&') ∧ c1 = 'v' ∧ c2 = '='
               then [(([] : List Char), r)] else [])
              ++ (qvSplits (c1 :: c2 :: r)).map (fun p => (c :: p.1, p.2)) := rfl
        rw [hstep, if_neg hng, ihcs]
        rfl

/-! ### The extraction matcher on the recognised shapes -/

lemma qvSplits_cons_noHit (c c1 c2 : Char) (r : List Char)
    (hng : ¬ ((c = '?' ∨ c = '&') ∧ c1 = 'v' ∧ c2 = '=')) :
    qvSplits (c :: c1 :: c2 :: r)
      = (qvSplits (c1 :: c2 :: r)).map (fun p => (c :: p.1, p.2)) := by
  have hstep : qvSplits (c :: c1 :: c2 :: r)
      = (if (c = '?' ∨ c = '&') ∧ c1 = 'v' ∧ c2 = '='
         then [(([] : List Char), r)] else [])
        ++ (qvSplits (c1 :: c2 :: r)).map (fun p => (c :: p.1, p.2)) := rfl
  rw [hstep, if_neg hng]
  rfl

lemma qvSplits_cons_hit (c c1 c2 : Char) (r : List Char)
    (hg : (c = '?' ∨ c = '&') ∧ c1 = 'v' ∧ c2 = '=') :
    qvSplits (c :: c1 :: c2 :: r)
      = (([] : List Char), r) :: (qvSplits (c1 :: c2 :: r)).map (fun p => (c :: p.1, p.2)) := by
  have hstep : qvSplits (c :: c1 :: c2 :: r)
      = (if (c = '?' ∨ c = '&') ∧ c1 = 'v' ∧ c2 = '='
         then [(([] : List Char), r)] else [])
        ++ (qvSplits (c1 :: c2 :: r)).map (fun p => (c :: p.1, p.2)) := rfl
  rw [hstep, if_pos hg]
  rfl

lemma validId_facts (id : List Char) (hv : validId id) :
    (∀ c ∈ id, ¬ c = '/') ∧ (∀ c ∈ id, ¬ (c = '?' ∨ c = '&')) := by
  obtain ⟨_, hid⟩ := hv
  constructor
  · exact fun c hc => ytIdChar_ne c (hid c hc) '/' (by decide)
  · intro c hc hor
    rcases hor with e | e
    · exact ytIdChar_ne c (hid c hc) '?' (by decide) e
    · exact ytIdChar_ne c (hid c hc) '&' (by decide) e

lemma matchHere_youtube (s : List Char) :
    matchHere ("youtube.com/".data ++ s) = matchAfterYoutube s := by
  have hp : ("youtube.com/".data.isPrefixOf ("youtube.com/".data ++ s)) = true :=
    List.isPrefixOf_iff_prefix.mpr ⟨s, rfl⟩
  simp only [matchHere, hp, if_true]
  rw [List.drop_left' (show ("youtube.com/".data).length = 12 from rfl)]

lemma matchHere_ytbe (s : List Char) :
    matchHere ("youtu.be/".data ++ s) = captureEleven s := by
  have h1 : ("youtube.com/".data.isPrefixOf ("youtu.be/".data ++ s)) = false := rfl
  have h2 : ("youtu.be/".data.isPrefixOf ("youtu.be/".data ++ s)) = true :=
    List.isPrefixOf_iff_prefix.mpr ⟨s, rfl⟩
  simp only [matchHere, h1, h2, if_true, Bool.false_eq_true, if_false]
  rw [List.drop_left' (show ("youtu.be/".data).length = 9 from rfl)]

lemma findCapture_eq_of_matchHere (l : List Char) (r : List Char)
    (hne : l ≠ []) (h : matchHere l = some r) : findCapture l = some r := by
  cases l with
  | nil => cases hne rfl
  | cons c cs => simp [findCapture, h]

lemma findCapture_watch (id : List Char) (hv : validId id) :
    findCapture ("youtube.com/watch?v=".data ++ id) = some id := by
  obtain ⟨hslash, hqv⟩ := validId_facts id hv
  have ha1 : a1 ('w' :: 'a' :: 't' :: 'c' :: 'h' :: '?' :: 'v' :: '=' :: id) = none := by
    have hs : splitFirstSlash ('w' :: 'a' :: 't' :: 'c' :: 'h' :: '?' :: 'v' :: '=' :: id)
        = none := by
      apply splitFirstSlash_eq_none
      intro c hc
      have hc2 : c ∈ ['w', 'a', 't', 'c', 'h', '?', 'v', '='] ++ id := hc
      rcases List.mem_append.mp hc2 with h | h
      · revert h
        have hcon : ∀ c ∈ ['w', 'a', 't', 'c', 'h', '?', 'v', '='], ¬ c = '/' := by decide
        exact hcon c
      · exact hslash c h
    simp [a1, hs]
  have ha2 : a2 ('w' :: 'a' :: 't' :: 'c' :: 'h' :: '?' :: 'v' :: '=' :: id) = none := by
    have h1 : (['v', '/'].isPrefixOf
        ('w' :: 'a' :: 't' :: 'c' :: 'h' :: '?' :: 'v' :: '=' :: id)) = false := rfl
    have h2 : (['e', 'm', 'b', 'e', 'd', '/'].isPrefixOf
        ('w' :: 'a' :: 't' :: 'c' :: 'h' :: '?' :: 'v' :: '=' :: id)) = false := rfl
    have h3 : (['e', '/'].isPrefixOf
        ('w' :: 'a' :: 't' :: 'c' :: 'h' :: '?' :: 'v' :: '=' :: id)) = false := rfl
    simp [a2, h1, h2, h3]
  have hnil : qvSplits ('v' :: '=' :: id) = [] := by
    apply qvSplits_eq_nil
    intro c hc
    rcases List.mem_cons.mp hc with e | hc1
    · subst e; decide
    · rcases List.mem_cons.mp hc1 with e | hc2
      · subst e; decide
      · exact hqv c hc2
  have hqsplit : qvSplits ('w' :: 'a' :: 't' :: 'c' :: 'h' :: '?' :: 'v' :: '=' :: id)
      = [(['w', 'a', 't', 'c', 'h'], id)] := by
    rw [qvSplits_cons_noHit 'w' 'a' 't' _ (by decide),
        qvSplits_cons_noHit 'a' 't' 'c' _ (by decide),
        qvSplits_cons_noHit 't' 'c' 'h' _ (by decide),
        qvSplits_cons_noHit 'c' 'h' '?' _ (by decide),
        qvSplits_cons_noHit 'h' '?' 'v' _ (by decide),
        qvSplits_cons_hit '?' 'v' '=' id (by decide), hnil]
    rfl
  have hdot : ∀ x ∈ ['w', 'a', 't', 'c', 'h'], dotChar x = true := by decide
  have ha3 : a3 ('w' :: 'a' :: 't' :: 'c' :: 'h' :: '?' :: 'v' :: '=' :: id) = some id := by
    simp [a3, hqsplit, captureEleven_full id hv, hdot]
  have hafter : matchAfterYoutube ("watch?v=".data ++ id) = some id := by
    simp [matchAfterYoutube, ha1, ha2, ha3]
  have hmh : matchHere ("youtube.com/watch?v=".data ++ id) = some id := by
    rw [show "youtube.com/watch?v=".data ++ id
        = "youtube.com/".data ++ ("watch?v=".data ++ id) from rfl]
    rw [matchHere_youtube]
    exact hafter
  exact findCapture_eq_of_matchHere _ _ (by simp) hmh

lemma findCapture_embed (id : List Char) (hv : validId id) :
    findCapture ("youtube.com/embed/".data ++ id) = some id := by
  obtain ⟨hslash, _⟩ := validId_facts id hv
  have hs : splitFirstSlash ('e' :: 'm' :: 'b' :: 'e' :: 'd' :: '/' :: id)
      = some (['e', 'm', 'b', 'e', 'd'], id) := rfl
  have ha1 : a1 ('e' :: 'm' :: 'b' :: 'e' :: 'd' :: '/' :: id) = none := by
    simp [a1, hs, slashSplits_eq_nil id hslash]
  have h1 : (['v', '/'].isPrefixOf ('e' :: 'm' :: 'b' :: 'e' :: 'd' :: '/' :: id))
      = false := rfl
  have h2 : (['e', 'm', 'b', 'e', 'd', '/'].isPrefixOf
      ('e' :: 'm' :: 'b' :: 'e' :: 'd' :: '/' :: id)) = true :=
    List.isPrefixOf_iff_prefix.mpr ⟨id, rfl⟩
  have ha2 : a2 ('e' :: 'm' :: 'b' :: 'e' :: 'd' :: '/' :: id) = some id := by
    simp [a2, h1, h2, captureEleven_full id hv]
  have hafter : matchAfterYoutube ("embed/".data ++ id) = some id := by
    simp [matchAfterYoutube, ha1, ha2]
  have hmh : matchHere ("youtube.com/embed/".data ++ id) = some id := by
    rw [show "youtube.com/embed/".data ++ id
        = "youtube.com/".data ++ ("embed/".data ++ id) from rfl]
    rw [matchHere_youtube]
    exact hafter
  exact findCapture_eq_of_matchHere _ _ (by simp) hmh

lemma findCapture_ytbe (id : List Char) (hv : validId id) :
    findCapture ("youtu.be/".data ++ id) = some id := by
  have hmh : matchHere ("youtu.be/".data ++ id) = some id := by
    rw [matchHere_ytbe]
    exact captureEleven_full id hv
  exact findCapture_eq_of_matchHere _ _ (by simp) hmh

lemma matchHere_eq_none_of_no_slash (l : List Char) (h : ∀ c ∈ l, ¬ c = '/') :
    matchHere l = none := by
  have h1 : ("youtube.com/".data.isPrefixOf l) = false := by
    cases hcase : ("youtube.com/".data.isPrefixOf l) with
    | false => rfl
    | true =>
      exact absurd rfl
        (h '/' ((List.isPrefixOf_iff_prefix.mp hcase).subset (by decide)))
  have h2 : ("youtu.be/".data.isPrefixOf l) = false := by
    cases hcase : ("youtu.be/".data.isPrefixOf l) with
    | false => rfl
    | true =>
      exact absurd rfl
        (h '/' ((List.isPrefixOf_iff_prefix.mp hcase).subset (by decide)))
  simp [matchHere, h1, h2]

lemma findCapture_eq_none_of_no_slash (l : List Char) (h : ∀ c ∈ l, ¬ c = '/') :
    findCapture l = none := by
  induction l with
  | nil => rfl
  | cons c cs ih =>
    have hmh := matchHere_eq_none_of_no_slash (c :: cs) h
    simp [findCapture, hmh, ih (fun x hx => h x (List.mem_cons_of_mem _ hx))]

lemma findCapture_cons_ne_y (c : Char) (l : List Char) (hc : ¬ c = 'y') :
    findCapture (c :: l) = findCapture l := by
  have hbeq : ('y' == c) = false := beq_eq_false_iff_ne.mpr (fun e => hc e.symm)
  have h1 : ("youtube.com/".data.isPrefixOf (c :: l)) = false := by
    show (('y' == c) && ("outube.com/".data.isPrefixOf l)) = false
    rw [hbeq]
    rfl
  have h2 : ("youtu.be/".data.isPrefixOf (c :: l)) = false := by
    show (('y' == c) && ("outu.be/".data.isPrefixOf l)) = false
    rw [hbeq]
    rfl
  have hmh : matchHere (c :: l) = none := by simp [matchHere, h1, h2]
  simp [findCapture, hmh]

lemma findCapture_append_no_y (p l : List Char) (hp : ∀ c ∈ p, ¬ c = 'y') :
    findCapture (p ++ l) = findCapture l := by
  induction p with
  | nil => rfl
  | cons c cs ih =>
    rw [List.cons_append, findCapture_cons_ne_y c _ (hp c (List.mem_cons_self c cs)),
        ih (fun x hx => hp x (List.mem_cons_of_mem _ hx))]

/-- **C4**: for every URL of shape `youtube.com/watch?v=<id>`,
`youtube.com/embed/<id>` or `youtu.be/<id>` with an 11-character YouTube id,
`extractVideoId` returns exactly that id; a bare 11-character id matches no
pattern and is returned unchanged, and in general any input the regex does
not match is passed through unchanged. -/
theorem C4_extractVideoId_contract (id : List Char) (hlen : id.length = 11)
    (hid : ∀ c ∈ id, ytIdChar c = true) :
    extractVideoId ("youtube.com/watch?v=" ++ String.mk id) = String.mk id ∧
    extractVideoId ("youtube.com/embed/" ++ String.mk id) = String.mk id ∧
    extractVideoId ("youtu.be/" ++ String.mk id) = String.mk id ∧
    findCapture id = none ∧
    extractVideoId (String.mk id) = String.mk id ∧
    ∀ url : String, findCapture url.data = none → extractVideoId url = url := by
  have hv : validId id := ⟨hlen, hid⟩
  obtain ⟨hslash, _⟩ := validId_facts id hv
  refine ⟨?_, ?_, ?_, ?_, ?_, ?_⟩
  · have hfc : findCapture ("youtube.com/watch?v=" ++ String.mk id).data = some id := by
      rw [show ("youtube.com/watch?v=" ++ String.mk id).data
          = "youtube.com/watch?v=".data ++ id from by rw [String.data_append]]
      exact findCapture_watch id hv
    unfold extractVideoId
    rw [hfc]
  · have hfc : findCapture ("youtube.com/embed/" ++ String.mk id).data = some id := by
      rw [show ("youtube.com/embed/" ++ String.mk id).data
          = "youtube.com/embed/".data ++ id from by rw [String.data_append]]
      exact findCapture_embed id hv
    unfold extractVideoId
    rw [hfc]
  · have hfc : findCapture ("youtu.be/" ++ String.mk id).data = some id := by
      rw [show ("youtu.be/" ++ String.mk id).data
          = "youtu.be/".data ++ id from by rw [String.data_append]]
      exact findCapture_ytbe id hv
    unfold extractVideoId
    rw [hfc]
  · exact findCapture_eq_none_of_no_slash id hslash
  · unfold extractVideoId
    rw [show (String.mk id).data = id from rfl,
        findCapture_eq_none_of_no_slash id hslash]
  · intro url h
    unfold extractVideoId
    rw [h]

lemma stripProto_spec (s : List Char) :
    ∃ p, s = p ++ stripProto s ∧ (∀ c ∈ p, ¬ c = 'y') := by
  unfold stripProto
  by_cases h1 : ("https://".data.isPrefixOf s) = true
  · obtain ⟨t, ht⟩ := List.isPrefixOf_iff_prefix.mp h1
    refine ⟨"https://".data, ?_, by decide⟩
    rw [if_pos h1, ← ht, List.drop_left' (show ("https://".data).length = 8 from rfl)]
  · by_cases h2 : ("http://".data.isPrefixOf s) = true
    · obtain ⟨t, ht⟩ := List.isPrefixOf_iff_prefix.mp h2
      refine ⟨"http://".data, ?_, by decide⟩
      rw [if_neg h1, if_pos h2, ← ht,
        List.drop_left' (show ("http://".data).length = 7 from rfl)]
    · refine ⟨[], ?_, by simp⟩
      rw [if_neg h1, if_neg h2, List.nil_append]

lemma stripWww_spec (s : List Char) :
    ∃ p, s = p ++ stripWww s ∧ (∀ c ∈ p, ¬ c = 'y') := by
  unfold stripWww
  by_cases h1 : ("www.".data.isPrefixOf s) = true
  · obtain ⟨t, ht⟩ := List.isPrefixOf_iff_prefix.mp h1
    refine ⟨"www.".data, ?_, by decide⟩
    rw [if_pos h1, ← ht, List.drop_left' (show ("www.".data).length = 4 from rfl)]
  · refine ⟨[], ?_, by simp⟩
    rw [if_neg h1, List.nil_append]

lemma idTail_validId (t : List Char) (h : idTail t = true) : validId t := by
  unfold idTail at h
  rw [Bool.and_eq_true] at h
  exact ⟨of_decide_eq_true h.1, List.all_eq_true.mp h.2⟩

lemma hostCapture_spec (s : List Char) (h : (hostCapture s).isSome = true) :
    ∃ h0 id, s = h0 ++ id ∧ validId id ∧ findCapture s = some id := by
  unfold hostCapture at h
  by_cases h1 : ("youtube.com/watch?v=".data.isPrefixOf s) = true
  · obtain ⟨t, ht⟩ := List.isPrefixOf_iff_prefix.mp h1
    rw [if_pos h1] at h
    have hdrop : s.drop 20 = t := by
      rw [← ht, List.drop_left' (show ("youtube.com/watch?v=".data).length = 20 from rfl)]
    rw [hdrop] at h
    by_cases hid : idTail t = true
    · have hvid := idTail_validId t hid
      refine ⟨"youtube.com/watch?v=".data, t, ht.symm, hvid, ?_⟩
      rw [← ht]
      exact findCapture_watch t hvid
    · rw [if_neg hid] at h
      simp at h
  · rw [if_neg h1] at h
    by_cases h2 : ("youtube.com/embed/".data.isPrefixOf s) = true
    · obtain ⟨t, ht⟩ := List.isPrefixOf_iff_prefix.mp h2
      rw [if_pos h2] at h
      have hdrop : s.drop 18 = t := by
        rw [← ht, List.drop_left' (show ("youtube.com/embed/".data).length = 18 from rfl)]
      rw [hdrop] at h
      by_cases hid : idTail t = true
      · have hvid := idTail_validId t hid
        refine ⟨"youtube.com/embed/".data, t, ht.symm, hvid, ?_⟩
        rw [← ht]
        exact findCapture_embed t hvid
      · rw [if_neg hid] at h
        simp at h
    · rw [if_neg h2] at h
      by_cases h3 : ("youtu.be/".data.isPrefixOf s) = true
      · obtain ⟨t, ht⟩ := List.isPrefixOf_iff_prefix.mp h3
        rw [if_pos h3] at h
        have hdrop : s.drop 9 = t := by
          rw [← ht, List.drop_left' (show ("youtu.be/".data).length = 9 from rfl)]
        rw [hdrop] at h
        by_cases hid : idTail t = true
        · have hvid := idTail_validId t hid
          refine ⟨"youtu.be/".data, t, ht.symm, hvid, ?_⟩
          rw [← ht]
          exact findCapture_ytbe t hvid
        · rw [if_neg hid] at h
          simp at h
      · rw [if_neg h3] at h
        simp at h

/-- **C10**: every string the submission form validator accepts decomposes
as optional protocol/`www.` prefix, a recognised host shape, and an
11-character id; on such a string `extractVideoId` returns exactly that
captured id (the raw-input passthrough is never taken, since the regex
matches), so every form-submitted job targets an 11-character video id; and
a bare 11-character id is rejected by the validator. -/
theorem C10_validated_urls_extract_id :
    (∀ url : String, isValidYoutubeUrl url = true →
      ∃ pre id, url.data = pre ++ id ∧ id.length = 11 ∧
        (∀ c ∈ id, ytIdChar c = true) ∧
        findCapture url.data = some id ∧ extractVideoId url = String.mk id) ∧
    (∀ id : List Char, id.length = 11 → (∀ c ∈ id, ytIdChar c = true) →
      isValidYoutubeUrl (String.mk id) = false) := by
  constructor
  · intro url hv
    obtain ⟨p1, hp1, hy1⟩ := stripProto_spec url.data
    obtain ⟨p2, hp2, hy2⟩ := stripWww_spec (stripProto url.data)
    unfold isValidYoutubeUrl at hv
    obtain ⟨h0, id, hdec, hvid, hfc⟩ := hostCapture_spec _ hv
    have hfu : findCapture url.data = some id := by
      rw [hp1, hp2]
      rw [findCapture_append_no_y p1 _ hy1, findCapture_append_no_y p2 _ hy2]
      exact hfc
    refine ⟨p1 ++ p2 ++ h0, id, ?_, hvid.1, hvid.2, hfu, ?_⟩
    · rw [hp1, hp2, hdec]
      simp [List.append_assoc]
    · unfold extractVideoId
      rw [hfu]
  · intro id hlen hid
    have hcontain : ∀ (x : Char), ytIdChar x = false →
        ∀ lit : List Char, x ∈ lit → (lit.isPrefixOf id) = false := by
      intro x hx lit hmem
      cases hcase : (lit.isPrefixOf id) with
      | false => rfl
      | true =>
        have hm := (List.isPrefixOf_iff_prefix.mp hcase).subset hmem
        have hyt := hid x hm
        rw [hyt] at hx
        cases hx
    have h1 := hcontain ':' (by decide) "https://".data (by decide)
    have h2 := hcontain ':' (by decide) "http://".data (by decide)
    have h3 := hcontain '.' (by decide) "www.".data (by decide)
    have h4 := hcontain '/' (by decide) "youtube.com/watch?v=".data (by decide)
    have h5 := hcontain '/' (by decide) "youtube.com/embed/".data (by decide)
    have h6 := hcontain '/' (by decide) "youtu.be/".data (by decide)
    have e1 : stripProto id = id := by
      unfold stripProto
      rw [h1, h2]
      rfl
    have e2 : stripWww id = id := by
      unfold stripWww
      rw [h3]
      rfl
    have e3 : hostCapture id = none := by
      unfold hostCapture
      rw [h4, h5, h6]
      rfl
    show (hostCapture (stripWww (stripProto (String.mk id).data))).isSome = false
    rw [show (String.mk id).data = id from rfl, e1, e2, e3]
    rfl

/-- Witness for C4: the README's example id `dQw4w9WgXcQ` in all three URL
shapes and bare. -/
theorem C4_extractVideoId_contract_witness :
    extractVideoId ("youtube.com/watch?v=" ++ String.mk "dQw4w9WgXcQ".data)
      = String.mk "dQw4w9WgXcQ".data ∧
    extractVideoId ("youtube.com/embed/" ++ String.mk "dQw4w9WgXcQ".data)
      = String.mk "dQw4w9WgXcQ".data ∧
    extractVideoId ("youtu.be/" ++ String.mk "dQw4w9WgXcQ".data)
      = String.mk "dQw4w9WgXcQ".data ∧
    extractVideoId (String.mk "dQw4w9WgXcQ".data) = String.mk "dQw4w9WgXcQ".data := by
  have h := C4_extractVideoId_contract "dQw4w9WgXcQ".data (by decide) (by decide)
  exact ⟨h.1, h.2.1, h.2.2.1, h.2.2.2.2.1⟩

/-- Witness for C10: a fully-dressed valid URL yields its id through
`extractVideoId`, and the bare id is rejected by the validator. -/
theorem C10_validated_urls_extract_id_witness :
    (∃ pre id, ("https://www.youtube.com/watch?v=dQw4w9WgXcQ" : String).data
        = pre ++ id ∧ id.length = 11 ∧ (∀ c ∈ id, ytIdChar c = true) ∧
      findCapture ("https://www.youtube.com/watch?v=dQw4w9WgXcQ" : String).data
        = some id ∧
      extractVideoId "https://www.youtube.com/watch?v=dQw4w9WgXcQ" = String.mk id) ∧
    isValidYoutubeUrl (String.mk "dQw4w9WgXcQ".data) = false := by
  exact ⟨C10_validated_urls_extract_id.1
      "https://www.youtube.com/watch?v=dQw4w9WgXcQ" rfl,
    C10_validated_urls_extract_id.2 "dQw4w9WgXcQ".data (by decide) (by decide)⟩

end Hellfast
